import Mathlib

/-!
# Verification of RedShot's polling state machine and extraction pipeline

Shallow embedding of `src/redshot/client.py` (the `Client` class: `main_loop`,
`stop`, `_get_state`, `search`, `search_sort_key`) and
`src/redshot/constants/locator.py` (the `Locator` table).

The browser driver is external: per tick, its observable answers (the
classified state's presence signals, the result of QR extraction, the
"loading chats" flag, and the unread-chat scan) are supplied as inputs.
Python exceptions are modelled with `Except`/explicit error constructors;
an uncaught exception is a `fatal` tick outcome.
-/

namespace RedShot

/-- The four concrete values of `redshot.constants.State` used in `client.py`
(`AUTH`, `QR_AUTH`, `LOADING`, `LOGGED_IN`). `_get_state` returning `None`
("Indeterminate" in the spec) is modelled as `Option State = none`. -/
inductive State where
  | AUTH
  | QR_AUTH
  | LOADING
  | LOGGED_IN
deriving DecidableEq, Repr

/-- QR image content: opaque bytes, compared only for equality
(`curr_qr_binary != qr_binary` in `main_loop`). -/
abbrev QrPayload := List Nat

/-- A parsed search result (`utils.parse_search_result` output as described by
the spec's SearchResult record): category is the nearest preceding section
header's text (`curr_type` in `Client.search`, which starts as `None`). -/
structure SearchResult where
  category : Option String
  title : String
  unreadCount : Option Nat
deriving DecidableEq, Repr

/-- Events triggered by `Client.main_loop` via `trigger_event`. -/
inductive Event where
  | on_start
  | on_auth
  | on_qr (q : QrPayload)
  | on_qr_change (q : QrPayload)
  | on_loading (b : Bool)
  | on_logged_in
  | on_unread_chat (c : SearchResult)
  | on_tick
deriving DecidableEq, Repr

/-- Driver-side failures surfaced while extracting from the page.
`stale` is `StaleElementReferenceException`, `notFound` is
`NoSuchElementException` (these two are the ones the steady-state QR branch
catches); `other` is any other driver exception. -/
inductive ExtractErr where
  | stale
  | notFound
  | other
deriving DecidableEq, Repr

/-- Everything the driver would answer during one iteration of the poll
loop, supplied as an oracle: the classified state (`self._get_state()`),
the outcome of locating the QR canvas and exporting its bytes
(`find_element(*Locator.QR_CODE)` + `extract_image_from_canvas`),
the `is_present(LOADING_CHATS)` flag, and the unread-chat scan of the
steady-state LOGGED_IN branch. -/
structure TickInput where
  classified : Option State
  qrExtract : Except ExtractErr QrPayload
  loadingChats : Bool
  unreadScan : Except ExtractErr (List SearchResult)

/-- The loop's mutable locals: `state` (previously recorded classification,
initially `None`) and `qr_binary` (stored QR payload, initially `None`). -/
structure LoopState where
  state : Option State
  qr_binary : Option QrPayload
deriving DecidableEq, Repr

/-- Initial loop locals (`qr_binary = None`, `state = None` before the
`while self.running` loop). -/
def LoopState.init : LoopState := ⟨none, none⟩

/-- Result of one iteration of the `while` body: either an uncaught
exception propagates (`fatal`), or the loop continues with updated locals
having triggered `evs` in order. -/
inductive TickResult where
  | fatal
  | ok (s : LoopState) (evs : List Event)
deriving DecidableEq, Repr

/-- One iteration of the `while self.running` body of `Client.main_loop`
(client.py lines 98–175), as a function of the loop locals and the driver's
answers for this tick. -/
def tick (s : LoopState) (inp : TickInput) : TickResult :=
  match inp.classified with
  | none =>
    -- `if curr_state is None: await asyncio.sleep(...); continue`
    -- (skips the trailing `trigger_event("on_tick")`)
    .ok s []
  | some curr =>
    if some curr ≠ s.state then
      -- transition branch: `elif curr_state != state: match curr_state: ...`
      match curr with
      | .AUTH => .ok { s with state := some .AUTH } [.on_auth, .on_tick]
      | .QR_AUTH =>
        match inp.qrExtract with
        | .error _ => .fatal  -- no try/except around the transition extraction
        | .ok qr =>
          .ok { state := some .QR_AUTH, qr_binary := some qr } [.on_qr qr, .on_tick]
      | .LOADING =>
        .ok { s with state := some .LOADING } [.on_loading inp.loadingChats, .on_tick]
      | .LOGGED_IN => .ok { s with state := some .LOGGED_IN } [.on_logged_in, .on_tick]
    else
      -- steady-state branch
      match curr with
      | .QR_AUTH =>
        match inp.qrExtract with
        | .ok qr =>
          if some qr ≠ s.qr_binary then
            .ok { s with qr_binary := some qr } [.on_qr_change qr, .on_tick]
          else
            .ok s [.on_tick]
        | .error .stale => .ok s [.on_tick]      -- caught: pass
        | .error .notFound => .ok s [.on_tick]   -- caught: pass
        | .error .other => .fatal
      | .LOGGED_IN =>
        match inp.unreadScan with
        | .error _ => .fatal
        | .ok chats => .ok s (chats.map Event.on_unread_chat ++ [.on_tick])
      | _ => .ok s [.on_tick]

/-- Outcome of running the loop body over a finite prefix of ticks. -/
inductive RunResult where
  | fatal
  | ok (s : LoopState)
deriving DecidableEq, Repr

/-- Run the loop body over a list of per-tick driver answers, collecting all
triggered events in order; a fatal tick ends the run (events of earlier
ticks were already delivered). -/
def run (s : LoopState) : List TickInput → RunResult × List Event
  | [] => (.ok s, [])
  | inp :: rest =>
    match tick s inp with
    | .fatal => (.fatal, [])
    | .ok s' evs =>
      let (r, evs') := run s' rest
      (r, evs ++ evs')

/-- Is this event one of the four state-entry events the transition branch
fires (`on_auth`, `on_qr`, `on_loading`, `on_logged_in`)? -/
def isStateEntry : Event → Bool
  | .on_auth => true
  | .on_qr _ => true
  | .on_loading _ => true
  | .on_logged_in => true
  | _ => false

/-- The state-entry event matching a given state, payloads ignored. -/
def entryFor : State → Event → Bool
  | .AUTH, .on_auth => true
  | .QR_AUTH, .on_qr _ => true
  | .LOADING, .on_loading _ => true
  | .LOGGED_IN, .on_logged_in => true
  | _, _ => false

/-- Is this event an `on_qr_change`? -/
def isQrChange : Event → Bool
  | .on_qr_change _ => true
  | _ => false

/-- Is this event an `on_tick`? -/
def isTick : Event → Bool
  | .on_tick => true
  | _ => false

/-- A tick on which `_get_state` returned `None` and every other driver
probe would fail if it were reached. -/
def indetInput : TickInput := ⟨none, .error .other, false, .error .other⟩

/-- A tick whose transition into QrAuth hits a missing canvas: the
classifier saw the QR screen but the canvas is gone by extraction time. -/
def fatalQrInput : TickInput :=
  ⟨some .QR_AUTH, .error .notFound, false, .error .other⟩

/-! ## Session / driver lifecycle (`Client.__init__`, `stop`, `main_loop`) -/

/-- The external Selenium driver session, observed through its release
behaviour: `quit()` on a live session tears it down; `quit()` on an
already-quit session is a no-op (Selenium does not raise there).
`releases` counts actual session teardowns. -/
structure Driver where
  alive : Bool
  releases : Nat
deriving DecidableEq, Repr

/-- A freshly created driver (`self._init_driver()`). -/
def Driver.init : Driver := ⟨true, 0⟩

/-- `driver.quit()`: releases the session if it is still alive. -/
def Driver.quit (d : Driver) : Driver :=
  if d.alive then ⟨false, d.releases + 1⟩ else d

/-- The `Client` fields touched by `__init__`, `stop` and `main_loop`:
`self.running`, `self.quited`, `self._driver` (None until `main_loop`
creates it). -/
structure Client where
  running : Bool
  quited : Bool
  driver : Option Driver
deriving DecidableEq, Repr

/-- `Client.__init__` sets `running = False`, `quited = False`,
`_driver = None`. -/
def Client.init : Client := ⟨false, false, none⟩

/-- The exception `Client.stop` raises when `self._driver` is `None`
(`AttributeError: 'NoneType' object has no attribute 'quit'`). -/
inductive StopErr where
  | noneDriver
deriving DecidableEq, Repr

/-- `Client.stop` (client.py lines 186–192): sets the flags, then calls
`self._driver.quit()` unconditionally — which raises if `_driver` is still
`None`. -/
def Client.stop (c : Client) : Except StopErr Client :=
  match c.driver with
  | none => .error .noneDriver
  | some d => .ok { running := false, quited := true, driver := some d.quit }

/-- `Client.main_loop` from the driver-lifecycle viewpoint: it creates a
fresh driver (line 89), fires `on_start`, then runs the polling loop.
Nothing in `main_loop` calls `quit()` — there is no try/finally — so the
client's driver field after the loop (fatal or not) is the freshly created
driver, untouched. -/
def Client.mainLoop (c : Client) (inputs : List TickInput) :
    Client × RunResult × List Event :=
  let c' : Client := { c with driver := some Driver.init }
  let out := run LoopState.init inputs
  (c', out.1, Event.on_start :: out.2)

/-! ## State classifier (`Client._get_state`, client.py lines 194–205) -/

/-- The four presence signals `_get_state` probes via
`utils.is_present(driver, <locator>)`. -/
structure Presence where
  logged_in : Bool
  loading : Bool
  qr_code : Bool
  auth : Bool
deriving DecidableEq, Repr

/-- `Client._get_state`: ordered short-circuit presence checks, returning
the first hit, else `None`. -/
def get_state (p : Presence) : Option State :=
  if p.logged_in then some .LOGGED_IN
  else if p.loading then some .LOADING
  else if p.qr_code then some .QR_AUTH
  else if p.auth then some .AUTH
  else none

/-! ## Search-result extraction (`Client.search`, client.py lines 341–352) -/

/-- A child `div` of a search-item fragment, as probed by the loop:
its `.text` and how many element children (`./*`) it has. -/
structure Child where
  text : String
  childElems : Nat
deriving DecidableEq, Repr

/-- A search-item fragment, as observed by the loop in `Client.search`:
its direct child divs (`find_elements(By.XPATH, "./div")`), and the data
`utils.parse_search_result` would read off it (`none` when the fragment
matches neither known shape — "not applicable"). -/
structure Fragment where
  childDivs : List Child
  payload : Option (String × Option Nat)
deriving DecidableEq, Repr

/-- Modelled from the spec: `utils.parse_search_result` (utils.py is not in
src/). Per the spec, item fragments "produce a SearchResult tagged with the
current category, or \"not applicable\" if the fragment matches neither
shape (defensive default)". -/
def parse_search_result (f : Fragment) (currType : Option String) :
    Option SearchResult :=
  f.payload.map fun p => ⟨currType, p.1, p.2⟩

/-- The header test of `Client.search` line 345:
`len(child_divs) == 1 and len(child_divs[0].find_elements("./*")) == 0`. -/
def isHeader (f : Fragment) : Bool :=
  match f.childDivs with
  | [c] => c.childElems == 0
  | _ => false

/-- The text the header branch reads (`child_divs[0].text`). -/
def headerText (f : Fragment) : String :=
  match f.childDivs with
  | c :: _ => c.text
  | [] => ""

/-- The `for result in sorted_result_items` loop of `Client.search`
(lines 341–352): headers update `curr_type` and yield nothing; other
fragments are parsed against the current `curr_type` and appended when the
parse is applicable. -/
def extractSearchResults (currType : Option String) :
    List Fragment → List SearchResult
  | [] => []
  | f :: rest =>
    if isHeader f then
      extractSearchResults (some (headerText f)) rest
    else
      match parse_search_result f currType with
      | some r => r :: extractSearchResults currType rest
      | none => extractSearchResults currType rest

/-! ## Search-item ordering (`Client.search_sort_key`, client.py line 36) -/

/-- Maximal runs of ASCII digits in a character list:
`re.findall(r"\d+", s)` (the transform strings at stake are ASCII). -/
def digitRunsAux : List Char → List Char → List String
  | [], acc => if acc.isEmpty then [] else [String.mk acc.reverse]
  | c :: cs, acc =>
    if c.isDigit then digitRunsAux cs (c :: acc)
    else if acc.isEmpty then digitRunsAux cs []
    else String.mk acc.reverse :: digitRunsAux cs []

/-- `re.findall(r"\d+", s)`. -/
def digitRuns (s : String) : List String := digitRunsAux s.toList []

/-- `int(run)` for a run of ASCII digits (base-10 value). -/
def natOfDigits (s : String) : Nat :=
  s.data.foldl (fun n c => n * 10 + (c.toNat - Char.toNat (Char.ofNat 48))) 0

/-- `self.search_sort_key`: `int(re.findall(r"\d+", transform)[-1])` on the
item's CSS `transform` — the numeric value of the LAST digit run. `none`
models the `IndexError` Python raises when the string has no digits. -/
def search_sort_key (transform : String) : Option Nat :=
  (digitRuns transform).getLast?.map natOfDigits

/-- A search-item element handle as seen by the sort: its CSS `transform`
property plus an opaque identity so that distinct on-page items with equal
offsets stay distinguishable. -/
structure SItem where
  transform : String
  id : Nat
deriving DecidableEq, Repr

/-- The sort key, totalised for items that do have a digit run
(Python would raise on the others before sorting anything). -/
def keyN (i : SItem) : Nat := (search_sort_key i.transform).getD 0

/-- `sorted(result_items, key=self.search_sort_key)` (line 339): Python's
`sorted` is a stable sort by the key (so its output is exactly that of any
stable sorting algorithm under `keyN · ≤ keyN ·`, here insertion sort); it
raises if any item's key computation raises. -/
def sortSearchItems (l : List SItem) : Option (List SItem) :=
  if l.all fun i => (search_sort_key i.transform).isSome then
    some (l.insertionSort fun a b => keyN a ≤ keyN b)
  else
    none

/-! ## Locator table (`constants/locator.py`) -/

/-- A Selenium locator tuple `(By.<how>, query)`. -/
abbrev Loc := String × String

/-- The class-attribute table of `Locator`: an association list from
(uppercase) attribute name to locator tuple.  `hasattr`/`getattr`/`setattr`
on the class operate on this fixed domain (the class's only uppercase
attributes are the locator tuples below). -/
structure LocatorTable where
  entries : List (String × Loc)
deriving DecidableEq, Repr

/-- `locator_name.upper()` — uppercase each character (the attribute names
at stake are ASCII). -/
def upperName (s : String) : String := String.mk (s.data.map Char.toUpper)

/-- `hasattr(cls, name)` for an uppercase candidate name. -/
def LocatorTable.hasattr (t : LocatorTable) (n : String) : Bool :=
  t.entries.any fun p => p.1 == n

/-- `Locator.set_locator`: uppercase the name; if the attribute exists,
overwrite it and return `True`, else return `False` leaving the table
untouched. -/
def set_locator (t : LocatorTable) (locator_name : String) (locator : Loc) :
    Bool × LocatorTable :=
  if t.hasattr (upperName locator_name) then
    (true, ⟨t.entries.map fun p =>
      if p.1 == upperName locator_name then (upperName locator_name, locator) else p⟩)
  else
    (false, t)

/-- `Locator.get_locator`: `getattr(cls, locator_name.upper(), None)`. -/
def get_locator (t : LocatorTable) (locator_name : String) : Option Loc :=
  (t.entries.find? fun p => p.1 == upperName locator_name).map Prod.snd

/-- The initial class attributes of `Locator` (locator.py lines 6–41). -/
def Locator.initial : LocatorTable :=
  ⟨[ ("AUTH", ("xpath", "//div[contains(text(), 'Use WhatsApp on your computer')]")),
     ("QR_CODE", ("xpath", "//canvas[@aria-label='Scan this QR code to link a device!']")),
     ("LOADING", ("xpath", "//div[//span[@data-icon='lock'] and contains(text(), 'End-to-end encrypted') and //progress]")),
     ("LOADING_CHATS", ("xpath", "//div[text()='Loading your chats']")),
     ("LOGGED_IN", ("xpath", "//div[@title='Chats']")),
     ("CHATS_BUTTON", ("xpath", "//div[@aria-label='Chats']")),
     ("STATUS_BUTTON", ("xpath", "//div[@aria-label='Status']")),
     ("CHANNELS_BUTTON", ("xpath", "//div[@aria-label='Channels']")),
     ("COMMUNITIES_BUTTON", ("xpath", "//div[@aria-label='Communities']")),
     ("ALL_CHATS_BUTTON", ("xpath", "//div[text()='All']")),
     ("UNREAD_CHATS_BUTTON", ("xpath", "//div[text()='Unread']")),
     ("FAVOURITES_CHATS_BUTTON", ("xpath", "//div[text()='Favourites']")),
     ("GROUPS_CHATS_BUTTON", ("xpath", "//div[text()='Groups']")),
     ("SEARCH_BUTTON_INACTIVE", ("xpath", "//button[@aria-label='Search or start new chat']")),
     ("SEARCH_BUTTON_ACTIVE", ("xpath", "//button[@aria-label='Chat list']")),
     ("CANCEL_SEARCH_BUTTON", ("xpath", "//button[@aria-label='Cancel search']")),
     ("CHAT_INPUT_BOX", ("xpath", "//div[@aria-placeholder='Type a message']")),
     ("SEARCH_RESULT", ("xpath", "//div[@aria-label='Search results.']")),
     ("SEARCH_ITEM", ("xpath", "//div[@role='listitem']")),
     ("SEARCH_ITEM_COMPONENTS", ("xpath", ".//div[@role='gridcell' and @aria-colindex='2']/parent::div/div")),
     ("SEARCH_ITEM_UNREAD_MESSAGES", ("xpath", ".//span[contains(@aria-label, 'unread message')]")),
     ("SPAN_TITLE", ("xpath", ".//span[@title]")),
     ("CHAT_DIV", ("xpath", "//div[@role='application']")),
     ("UNREAD_CHAT_DIV", ("xpath", "//div[@aria-label='Chat list']")),
     ("CHAT_COMPONENT", ("xpath", ".//div[@role='row']")),
     ("CHAT_MESSAGE_DATA_ID", ("xpath", ".//div[@data-id]")),
     ("CHAT_MESSAGE", ("xpath", ".//div[@data-pre-plain-text]")),
     ("CHAT_MESSAGE_QUOTE", ("xpath", ".//div[@aria-label='Quoted message']")),
     ("CHAT_MESSAGE_IMAGE", ("xpath", ".//div[@aria-label='Open picture']")),
     ("CHAT_MESSAGE_IMAGE_ELEMENT", ("xpath", ".//img[starts-with(@src, 'blob:https://web.whatsapp.com')]")) ]⟩

/-- A header fragment: one child div carrying only text (no nested
elements). -/
def headerFrag (t : String) : Fragment := ⟨[⟨t, 0⟩], none⟩

/-- An item fragment: two child divs (so not header-shaped), parseable with
the given title. -/
def itemFrag (title : String) : Fragment := ⟨[⟨"", 1⟩, ⟨"", 0⟩], some (title, none)⟩

/-! ## Theorems -/

/-- The four C1 conjuncts for a steady tick, abstracted over the branch's
resulting state and events. -/
lemma tick_goal_steady (s : LoopState) (curr : State) (s' : LoopState) (evs : List Event)
    (hne : some curr = s.state) (hcount : evs.countP isStateEntry = 0)
    (hstate : s'.state = s.state) :
    (evs.countP isStateEntry = 1 ↔ ∃ c, (some curr : Option State) = some c ∧ some c ≠ s.state)
  ∧ (∀ c, (some curr : Option State) = some c → some c ≠ s.state →
      evs.countP (entryFor c) = 1 ∧ evs.countP isStateEntry = 1 ∧ s'.state = some c)
  ∧ (∀ c, (some curr : Option State) = some c → some c = s.state →
      evs.countP isStateEntry = 0 ∧ s'.state = s.state)
  ∧ ((some curr : Option State) = none → evs.countP isStateEntry = 0 ∧ s' = s ∧ evs = []) := by
  refine ⟨?_, ?_, ?_, ?_⟩
  · rw [hcount]
    constructor
    · intro h01; cases h01
    · rintro ⟨c, hc, hcn⟩
      injection hc with hc; subst hc
      exact absurd hne hcn
  · rintro c hc hcn
    injection hc with hc; subst hc
    exact absurd hne hcn
  · rintro c hc _
    exact ⟨hcount, hstate⟩
  · rintro h; cases h

/-- The four C1 conjuncts for a transition tick. -/
lemma tick_goal_trans (s : LoopState) (curr : State) (s' : LoopState) (evs : List Event)
    (hne : ¬ (some curr = s.state)) (hcnt1 : evs.countP isStateEntry = 1)
    (hent : evs.countP (entryFor curr) = 1) (hstate : s'.state = some curr) :
    (evs.countP isStateEntry = 1 ↔ ∃ c, (some curr : Option State) = some c ∧ some c ≠ s.state)
  ∧ (∀ c, (some curr : Option State) = some c → some c ≠ s.state →
      evs.countP (entryFor c) = 1 ∧ evs.countP isStateEntry = 1 ∧ s'.state = some c)
  ∧ (∀ c, (some curr : Option State) = some c → some c = s.state →
      evs.countP isStateEntry = 0 ∧ s'.state = s.state)
  ∧ ((some curr : Option State) = none → evs.countP isStateEntry = 0 ∧ s' = s ∧ evs = []) := by
  refine ⟨⟨fun _ => ⟨curr, rfl, hne⟩, fun _ => hcnt1⟩, ?_, ?_, ?_⟩
  · rintro c hc _
    injection hc with hc; subst hc
    exact ⟨hent, hcnt1, hstate⟩
  · rintro c hc hceq
    injection hc with hc; subst hc
    exact absurd hceq hne
  · rintro h; cases h

/-- Claim C1: on any successful loop iteration, a state-entry event fires
iff the classification is non-Indeterminate and differs from the stored
previous state; exactly one fires per transition tick and it matches the
new state, whose value is then stored; an Indeterminate classification
fires nothing and leaves the loop locals untouched. -/
theorem transition_events (s : LoopState) (inp : TickInput) (s' : LoopState)
    (evs : List Event) (h : tick s inp = .ok s' evs) :
    (evs.countP isStateEntry = 1 ↔ ∃ c, inp.classified = some c ∧ some c ≠ s.state)
  ∧ (∀ c, inp.classified = some c → some c ≠ s.state →
      evs.countP (entryFor c) = 1 ∧ evs.countP isStateEntry = 1 ∧ s'.state = some c)
  ∧ (∀ c, inp.classified = some c → some c = s.state →
      evs.countP isStateEntry = 0 ∧ s'.state = s.state)
  ∧ (inp.classified = none → evs.countP isStateEntry = 0 ∧ s' = s ∧ evs = []) := by
  obtain ⟨cl, qre, lc, us⟩ := inp
  cases cl with
  | none =>
    simp only [tick] at h
    injection h with h1 h2
    subst h1; subst h2
    simp
  | some curr =>
    simp only [tick] at h
    by_cases hne : some curr = s.state
    · rw [if_neg (not_not_intro hne)] at h
      cases curr with
      | QR_AUTH =>
        cases qre with
        | ok qr =>
          simp only at h
          by_cases hq : some qr = s.qr_binary
          · rw [if_neg (not_not_intro hq)] at h
            injection h with h1 h2
            subst h1; subst h2
            exact tick_goal_steady s _ s [Event.on_tick] hne
              (by simp [List.countP_cons, isStateEntry]) rfl
          · rw [if_pos hq] at h
            injection h with h1 h2
            subst h1; subst h2
            exact tick_goal_steady s _ _ _ hne
              (by simp [List.countP_cons, isStateEntry]) rfl
        | error e =>
          cases e with
          | stale =>
            simp only at h
            injection h with h1 h2; subst h1; subst h2
            exact tick_goal_steady s _ s [Event.on_tick] hne
              (by simp [List.countP_cons, isStateEntry]) rfl
          | notFound =>
            simp only at h
            injection h with h1 h2; subst h1; subst h2
            exact tick_goal_steady s _ s [Event.on_tick] hne
              (by simp [List.countP_cons, isStateEntry]) rfl
          | other => simp only at h; cases h
      | LOGGED_IN =>
        cases us with
        | ok chats =>
          simp only at h
          injection h with h1 h2
          subst h1; subst h2
          refine tick_goal_steady s _ s _ hne ?_ rfl
          rw [List.countP_append]
          have h1 : (chats.map Event.on_unread_chat).countP isStateEntry = 0 := by
            apply List.countP_eq_zero.mpr
            intro e he
            obtain ⟨c, _, rfl⟩ := List.mem_map.mp he
            simp [isStateEntry]
          rw [h1]
          simp [List.countP_cons, isStateEntry]
        | error e => cases h
      | AUTH =>
        simp only at h
        injection h with h1 h2
        subst h1; subst h2
        exact tick_goal_steady s _ s [Event.on_tick] hne
          (by simp [List.countP_cons, isStateEntry]) rfl
      | LOADING =>
        simp only at h
        injection h with h1 h2
        subst h1; subst h2
        exact tick_goal_steady s _ s [Event.on_tick] hne
          (by simp [List.countP_cons, isStateEntry]) rfl
    · rw [if_pos hne] at h
      cases curr with
      | AUTH =>
        simp only at h
        injection h with h1 h2
        subst h1; subst h2
        exact tick_goal_trans s _ _ _ hne
          (by simp [List.countP_cons, isStateEntry])
          (by simp [List.countP_cons, entryFor]) rfl
      | QR_AUTH =>
        cases qre with
        | ok qr =>
          simp only at h
          injection h with h1 h2
          subst h1; subst h2
          exact tick_goal_trans s _ _ _ hne
            (by simp [List.countP_cons, isStateEntry])
            (by simp [List.countP_cons, entryFor]) rfl
        | error e => cases h
      | LOADING =>
        simp only at h
        injection h with h1 h2
        subst h1; subst h2
        exact tick_goal_trans s _ _ _ hne
          (by simp [List.countP_cons, isStateEntry])
          (by simp [List.countP_cons, entryFor]) rfl
      | LOGGED_IN =>
        simp only at h
        injection h with h1 h2
        subst h1; subst h2
        exact tick_goal_trans s _ _ _ hne
          (by simp [List.countP_cons, isStateEntry])
          (by simp [List.countP_cons, entryFor]) rfl

/-- Witness for C1: a transition from the initial loop state into AUTH
fires exactly one state-entry event. -/
theorem transition_events_witness :
    tick LoopState.init ⟨some State.AUTH, Except.error .other, false, Except.error .other⟩
      = TickResult.ok ⟨some State.AUTH, none⟩ [Event.on_auth, Event.on_tick]
  ∧ ([Event.on_auth, Event.on_tick].countP isStateEntry = 1
      ↔ ∃ c, (some State.AUTH : Option State) = some c ∧ some c ≠ LoopState.init.state) :=
  ⟨rfl,
   (transition_events LoopState.init
      ⟨some State.AUTH, Except.error .other, false, Except.error .other⟩
      ⟨some State.AUTH, none⟩ [Event.on_auth, Event.on_tick] rfl).1⟩

/-- An all-Indeterminate run triggers nothing at all: the `continue` of the
`curr_state is None` branch skips the trailing `on_tick` trigger. -/
lemma run_replicate_indet (n : Nat) (s : LoopState) :
    run s (List.replicate n indetInput) = (.ok s, []) := by
  induction n with
  | zero => rfl
  | succ n ih =>
    have ht : tick s indetInput = .ok s [] := rfl
    rw [List.replicate_succ]
    simp only [run, ht, ih]
    rfl

/-- Counterexample to C2 as stated: one loop iteration whose classifier
returns Indeterminate fires zero `on_tick` events, not one. -/
theorem on_tick_counterexample :
    ¬ ((run LoopState.init (List.replicate 1 indetInput)).2.countP isTick = 1) := by
  decide

/-- Claim C2 (amended): `on_tick` fires exactly once, and last, on every
completed iteration whose classification is non-Indeterminate; an
Indeterminate iteration fires no event at all, so a loop classified
Indeterminate on every one of N iterations fires zero `on_tick` events and
zero state-entry events. -/
theorem on_tick_per_iteration (s : LoopState) (inp : TickInput) (s' : LoopState)
    (evs : List Event) (h : tick s inp = .ok s' evs) :
    (inp.classified ≠ none →
      evs.countP isTick = 1 ∧ ∃ pre, evs = pre ++ [.on_tick] ∧ pre.countP isTick = 0)
  ∧ (inp.classified = none → evs = [])
  ∧ (∀ n, (run LoopState.init (List.replicate n indetInput)).2 = []
        ∧ (run LoopState.init (List.replicate n indetInput)).2.countP isTick = 0
        ∧ (run LoopState.init (List.replicate n indetInput)).2.countP isStateEntry = 0) := by
  refine ⟨?_, ?_, ?_⟩
  · intro hcl
    obtain ⟨cl, qre, lc, us⟩ := inp
    cases cl with
    | none => exact absurd rfl hcl
    | some curr =>
      simp only [tick] at h
      by_cases hne : some curr = s.state
      · rw [if_neg (not_not_intro hne)] at h
        cases curr with
        | QR_AUTH =>
          cases qre with
          | ok qr =>
            simp only at h
            by_cases hq : some qr = s.qr_binary
            · rw [if_neg (not_not_intro hq)] at h
              injection h with h1 h2; subst h1; subst h2
              exact ⟨by simp [List.countP_cons, isTick], [], rfl, rfl⟩
            · rw [if_pos hq] at h
              injection h with h1 h2; subst h1; subst h2
              exact ⟨by simp [List.countP_cons, isTick], [.on_qr_change qr], rfl,
                by simp [List.countP_cons, isTick]⟩
          | error e =>
            cases e with
            | stale =>
              simp only at h
              injection h with h1 h2; subst h1; subst h2
              exact ⟨by simp [List.countP_cons, isTick], [], rfl, rfl⟩
            | notFound =>
              simp only at h
              injection h with h1 h2; subst h1; subst h2
              exact ⟨by simp [List.countP_cons, isTick], [], rfl, rfl⟩
            | other => simp only at h; cases h
        | LOGGED_IN =>
          cases us with
          | ok chats =>
            simp only at h
            injection h with h1 h2; subst h1; subst h2
            have hz : (chats.map Event.on_unread_chat).countP isTick = 0 := by
              apply List.countP_eq_zero.mpr
              intro e he
              obtain ⟨c, _, rfl⟩ := List.mem_map.mp he
              simp [isTick]
            refine ⟨?_, chats.map Event.on_unread_chat, rfl, hz⟩
            rw [List.countP_append, hz]
            simp [List.countP_cons, isTick]
          | error e => cases h
        | AUTH =>
          simp only at h
          injection h with h1 h2; subst h1; subst h2
          exact ⟨by simp [List.countP_cons, isTick], [], rfl, rfl⟩
        | LOADING =>
          simp only at h
          injection h with h1 h2; subst h1; subst h2
          exact ⟨by simp [List.countP_cons, isTick], [], rfl, rfl⟩
      · rw [if_pos hne] at h
        cases curr with
        | AUTH =>
          simp only at h
          injection h with h1 h2; subst h1; subst h2
          exact ⟨by simp [List.countP_cons, isTick], [.on_auth], rfl,
            by simp [List.countP_cons, isTick]⟩
        | QR_AUTH =>
          cases qre with
          | ok qr =>
            simp only at h
            injection h with h1 h2; subst h1; subst h2
            exact ⟨by simp [List.countP_cons, isTick], [.on_qr qr], rfl,
              by simp [List.countP_cons, isTick]⟩
          | error e => cases h
        | LOADING =>
          simp only at h
          injection h with h1 h2; subst h1; subst h2
          exact ⟨by simp [List.countP_cons, isTick], [.on_loading lc], rfl,
            by simp [List.countP_cons, isTick]⟩
        | LOGGED_IN =>
          simp only at h
          injection h with h1 h2; subst h1; subst h2
          exact ⟨by simp [List.countP_cons, isTick], [.on_logged_in], rfl,
            by simp [List.countP_cons, isTick]⟩
  · intro hcl
    obtain ⟨cl, qre, lc, us⟩ := inp
    cases cl with
    | none =>
      simp only [tick] at h
      injection h with h1 h2
      exact h2.symm
    | some curr => cases hcl
  · intro n
    rw [run_replicate_indet n LoopState.init]
    exact ⟨rfl, rfl, rfl⟩

/-- Witness for C2 (amended): a non-Indeterminate tick fires `on_tick`
exactly once, and a three-tick all-Indeterminate run fires nothing. -/
theorem on_tick_per_iteration_witness :
    [Event.on_auth, Event.on_tick].countP isTick = 1
  ∧ (run LoopState.init (List.replicate 3 indetInput)).2 = [] :=
  ⟨((on_tick_per_iteration LoopState.init
      ⟨some State.AUTH, Except.error .other, false, Except.error .other⟩
      ⟨some State.AUTH, none⟩ [Event.on_auth, Event.on_tick] rfl).1
      (by decide)).1,
   ((on_tick_per_iteration LoopState.init
      ⟨some State.AUTH, Except.error .other, false, Except.error .other⟩
      ⟨some State.AUTH, none⟩ [Event.on_auth, Event.on_tick] rfl).2.2 3).1⟩

/-- Claim C3: on a QrAuth steady-state tick with a successful re-extraction,
QR change detection is content-based: equal bytes fire nothing and leave
the stored payload alone; different bytes fire exactly one `on_qr_change`
carrying the new payload, which is stored. -/
theorem qr_change_content_based (s : LoopState) (inp : TickInput) (qr : QrPayload)
    (hs : s.state = some State.QR_AUTH) (hc : inp.classified = some State.QR_AUTH)
    (hq : inp.qrExtract = .ok qr) :
    (some qr = s.qr_binary → tick s inp = .ok s [.on_tick])
  ∧ (some qr ≠ s.qr_binary →
      tick s inp = .ok { s with qr_binary := some qr } [.on_qr_change qr, .on_tick]) := by
  obtain ⟨cl, qre, lc, us⟩ := inp
  obtain rfl : cl = some State.QR_AUTH := hc
  obtain rfl : qre = Except.ok qr := hq
  constructor
  · intro heq
    simp only [tick]
    rw [if_neg (not_not_intro hs.symm), if_neg (not_not_intro heq)]
  · intro hne
    simp only [tick]
    rw [if_neg (not_not_intro hs.symm), if_pos hne]

/-- Witness for C3: identical bytes fire nothing; changed bytes fire one
`on_qr_change` with the new payload and store it. -/
theorem qr_change_content_based_witness :
    tick ⟨some State.QR_AUTH, some [1]⟩
        ⟨some State.QR_AUTH, Except.ok [1], false, Except.error .other⟩
      = TickResult.ok ⟨some State.QR_AUTH, some [1]⟩ [Event.on_tick]
  ∧ tick ⟨some State.QR_AUTH, some [1]⟩
        ⟨some State.QR_AUTH, Except.ok [2], false, Except.error .other⟩
      = TickResult.ok ⟨some State.QR_AUTH, some [2]⟩
          [Event.on_qr_change [2], Event.on_tick] :=
  ⟨(qr_change_content_based ⟨some State.QR_AUTH, some [1]⟩
      ⟨some State.QR_AUTH, Except.ok [1], false, Except.error .other⟩ [1]
      rfl rfl rfl).1 rfl,
   (qr_change_content_based ⟨some State.QR_AUTH, some [1]⟩
      ⟨some State.QR_AUTH, Except.ok [2], false, Except.error .other⟩ [2]
      rfl rfl rfl).2 (by decide)⟩

/-- Claim C5: a stale/absent-canvas failure of QR re-extraction is swallowed
on a QrAuth steady-state tick (no QR event, loop locals unchanged, only the
unconditional `on_tick` fires); the same failure on a transition tick into
QrAuth escapes the loop as fatal. -/
theorem qr_failure_policy (s : LoopState) (inp : TickInput)
    (he : inp.qrExtract = .error .stale ∨ inp.qrExtract = .error .notFound)
    (hc : inp.classified = some State.QR_AUTH) :
    (s.state = some State.QR_AUTH → tick s inp = .ok s [.on_tick])
  ∧ (s.state ≠ some State.QR_AUTH → tick s inp = .fatal) := by
  obtain ⟨cl, qre, lc, us⟩ := inp
  obtain rfl : cl = some State.QR_AUTH := hc
  rcases he with he | he <;> obtain rfl : qre = _ := he <;> constructor
  · intro hs
    simp only [tick]
    rw [if_neg (not_not_intro hs.symm)]
  · intro hs
    simp only [tick]
    rw [if_pos (fun hh => hs hh.symm)]
  · intro hs
    simp only [tick]
    rw [if_neg (not_not_intro hs.symm)]
  · intro hs
    simp only [tick]
    rw [if_pos (fun hh => hs hh.symm)]

/-- Witness for C5: a stale failure is swallowed in steady-state QrAuth but
fatal on the transition into QrAuth. -/
theorem qr_failure_policy_witness :
    tick ⟨some State.QR_AUTH, some [1]⟩
        ⟨some State.QR_AUTH, Except.error .stale, false, Except.error .other⟩
      = TickResult.ok ⟨some State.QR_AUTH, some [1]⟩ [Event.on_tick]
  ∧ tick LoopState.init
        ⟨some State.QR_AUTH, Except.error .stale, false, Except.error .other⟩
      = TickResult.fatal :=
  ⟨(qr_failure_policy ⟨some State.QR_AUTH, some [1]⟩
      ⟨some State.QR_AUTH, Except.error .stale, false, Except.error .other⟩
      (Or.inl rfl) rfl).1 rfl,
   (qr_failure_policy LoopState.init
      ⟨some State.QR_AUTH, Except.error .stale, false, Except.error .other⟩
      (Or.inl rfl) rfl).2 (by decide)⟩

/-- Counterexample to C4 as stated: when the loop exits via a fatal failure
(here a missing canvas on the transition into QrAuth) the driver session is
NOT released — `main_loop` has no try/finally and never calls `quit()`, so
the freshly created session is still alive with zero releases. -/
theorem session_release_counterexample :
    (Client.init.mainLoop [fatalQrInput]).2.1 = RunResult.fatal
  ∧ (Client.init.mainLoop [fatalQrInput]).1.driver = some ⟨true, 0⟩ := ⟨rfl, rfl⟩

/-- Claim C4 (amended): with the driver initialized, calling `stop()` twice
in succession does not raise and the underlying session is released at most
once across both calls; but the loop itself never releases the session on a
fatal exit — `main_loop` leaves the freshly created driver untouched
whatever the run outcome, so release-on-failure is the caller's job. -/
theorem stop_release_at_most_once (c : Client) (d : Driver) (h : c.driver = some d) :
    (∃ c1 c2, c.stop = .ok c1 ∧ c1.stop = .ok c2
      ∧ ∃ d2, c2.driver = some d2 ∧ d2.releases ≤ d.releases + 1 ∧ d2.alive = false)
  ∧ (∀ (c0 : Client) (inputs : List TickInput),
      ((c0.mainLoop inputs).1).driver = some Driver.init) := by
  obtain ⟨r, q, dr⟩ := c
  obtain rfl : dr = some d := h
  constructor
  · refine ⟨_, _, rfl, rfl, d.quit.quit, rfl, ?_, ?_⟩
    · unfold Driver.quit
      by_cases hd : d.alive <;> simp [hd]
    · unfold Driver.quit
      by_cases hd : d.alive <;> simp [hd]
  · intro c0 inputs
    rfl

/-- Witness for C4 (amended): two `stop()` calls on a client holding a fresh
live driver both succeed and release the session exactly once. -/
theorem stop_release_at_most_once_witness :
    ∃ c1 c2, (Client.mk true false (some (Driver.mk true 0))).stop = .ok c1
      ∧ c1.stop = .ok c2
      ∧ ∃ d2, c2.driver = some d2 ∧ d2.releases ≤ 0 + 1 ∧ d2.alive = false :=
  (stop_release_at_most_once (Client.mk true false (some (Driver.mk true 0)))
    (Driver.mk true 0) rfl).1

/-- Claim C6: `_get_state` short-circuits in the fixed order LoggedIn,
Loading, QrAuth, Unauthenticated, returning the first state whose locator
is present, and `None` when none of the four is present. -/
theorem get_state_order (p : Presence) :
    (get_state p = some State.LOGGED_IN ↔ p.logged_in = true)
  ∧ (get_state p = some State.LOADING ↔ p.logged_in = false ∧ p.loading = true)
  ∧ (get_state p = some State.QR_AUTH ↔
       p.logged_in = false ∧ p.loading = false ∧ p.qr_code = true)
  ∧ (get_state p = some State.AUTH ↔
       p.logged_in = false ∧ p.loading = false ∧ p.qr_code = false ∧ p.auth = true)
  ∧ (get_state p = none ↔
       p.logged_in = false ∧ p.loading = false ∧ p.qr_code = false ∧ p.auth = false) := by
  obtain ⟨a, b, c, d⟩ := p
  cases a <;> cases b <;> cases c <;> cases d <;> decide

/-- Witness for C6: with both the QR canvas and the Unauthenticated marker
present, the classifier short-circuits to QrAuth. -/
theorem get_state_order_witness :
    get_state ⟨false, false, true, true⟩ = some State.QR_AUTH :=
  ((get_state_order ⟨false, false, true, true⟩).2.2.1).mpr ⟨rfl, rfl, rfl⟩

/-- Claim C7: in search-result extraction over a position-ordered fragment
list, a header fragment sets the current category to its text and yields no
result, any other fragment is parsed against the current category (skipped
when not applicable); on the synthetic example list the expected three
categorised results come out. -/
theorem search_extraction (curr : Option String) (f : Fragment) (rest : List Fragment) :
    (isHeader f = true →
      extractSearchResults curr (f :: rest)
        = extractSearchResults (some (headerText f)) rest)
  ∧ (isHeader f = false →
      extractSearchResults curr (f :: rest)
        = (parse_search_result f curr).toList ++ extractSearchResults curr rest)
  ∧ extractSearchResults none
      [headerFrag "CHATS", itemFrag "Alice", itemFrag "Bob",
       headerFrag "CONTACTS", itemFrag "Carol"]
    = [⟨some "CHATS", "Alice", none⟩, ⟨some "CHATS", "Bob", none⟩,
       ⟨some "CONTACTS", "Carol", none⟩] := by
  refine ⟨?_, ?_, rfl⟩
  · intro hh
    simp [extractSearchResults, hh]
  · intro hh
    cases hp : parse_search_result f curr <;>
      simp [extractSearchResults, hh, hp]

/-- Witness for C7: a header consumes itself into the category side channel,
and the synthetic list yields the three expected categorised results. -/
theorem search_extraction_witness :
    extractSearchResults none [headerFrag "CHATS", itemFrag "Alice"]
      = extractSearchResults (some "CHATS") [itemFrag "Alice"]
  ∧ extractSearchResults none
      [headerFrag "CHATS", itemFrag "Alice", itemFrag "Bob",
       headerFrag "CONTACTS", itemFrag "Carol"]
    = [⟨some "CHATS", "Alice", none⟩, ⟨some "CHATS", "Bob", none⟩,
       ⟨some "CONTACTS", "Carol", none⟩] :=
  ⟨(search_extraction none (headerFrag "CHATS") [itemFrag "Alice"]).1 rfl,
   (search_extraction none (headerFrag "CHATS") []).2.2⟩

/-- Claim C8: search items are ordered by the numeric value of the last
digit run of their CSS transform, ascending — "translateY(40px)" sorts
before "translateY(120px)" — and the sort is stable: items with equal
parsed offsets keep their original relative order. -/
theorem search_item_ordering (l : List SItem)
    (h : ∀ i ∈ l, (search_sort_key i.transform).isSome = true) :
    (search_sort_key "translateY(40px)" = some 40
      ∧ search_sort_key "translateY(120px)" = some 120)
  ∧ sortSearchItems [⟨"translateY(120px)", 0⟩, ⟨"translateY(40px)", 1⟩]
      = some [⟨"translateY(40px)", 1⟩, ⟨"translateY(120px)", 0⟩]
  ∧ ∃ l', sortSearchItems l = some l'
      ∧ List.Sorted (fun a b => keyN a ≤ keyN b) l'
      ∧ List.Perm l' l
      ∧ (∀ a b : SItem, keyN a = keyN b →
          List.Sublist [a, b] l → List.Sublist [a, b] l') := by
  haveI : IsTotal SItem (fun a b => keyN a ≤ keyN b) := ⟨fun a b => Nat.le_total _ _⟩
  haveI : IsTrans SItem (fun a b => keyN a ≤ keyN b) := ⟨fun a b c => Nat.le_trans⟩
  refine ⟨⟨rfl, rfl⟩, rfl, ?_⟩
  refine ⟨l.insertionSort (fun a b => keyN a ≤ keyN b), ?_, ?_, ?_, ?_⟩
  · unfold sortSearchItems
    rw [if_pos (List.all_eq_true.mpr h)]
  · exact List.sorted_insertionSort _ l
  · exact List.perm_insertionSort _ l
  · intro a b hk hsub
    exact List.pair_sublist_insertionSort (Nat.le_of_eq hk) hsub

/-- Witness for C8: the 40px item sorts ahead of the 120px item. -/
theorem search_item_ordering_witness :
    sortSearchItems [⟨"translateY(120px)", 0⟩, ⟨"translateY(40px)", 1⟩]
      = some [⟨"translateY(40px)", 1⟩, ⟨"translateY(120px)", 0⟩] :=
  (search_item_ordering [⟨"translateY(120px)", 0⟩, ⟨"translateY(40px)", 1⟩]
    (by decide)).2.1

/-- Rewriting a keyed entry leaves the replaced entry findable under its
key. -/
lemma find_map_update_self (l : List (String × Loc)) (n : String) (loc : Loc)
    (h : l.any (fun p => p.1 == n) = true) :
    (l.map fun p => if p.1 == n then (n, loc) else p).find? (fun p => p.1 == n)
      = some (n, loc) := by
  induction l with
  | nil => cases h
  | cons p l ih =>
    by_cases hp : p.1 == n
    · simp [List.find?, hp]
    · have h' : l.any (fun p => p.1 == n) = true := by
        rcases List.any_eq_true.mp h with ⟨x, hx, hpx⟩
        rcases List.mem_cons.mp hx with rfl | hx
        · exact absurd hpx hp
        · exact List.any_eq_true.mpr ⟨x, hx, hpx⟩
      simp only [List.map_cons, List.find?]
      rw [if_neg hp]
      simp only [Bool.not_eq_true] at hp
      rw [hp]
      exact ih h'

/-- Rewriting a keyed entry does not disturb lookups under other keys. -/
lemma find_map_update_other (l : List (String × Loc)) (n m : String) (loc : Loc)
    (hmn : m ≠ n) :
    (l.map fun p => if p.1 == n then (n, loc) else p).find? (fun p => p.1 == m)
      = l.find? (fun p => p.1 == m) := by
  induction l with
  | nil => rfl
  | cons p l ih =>
    by_cases hp : p.1 == n
    · have hp1 : p.1 = n := by simpa using hp
      have hnm : ((n, loc).1 == m) = false := by
        simp only [beq_eq_false_iff_ne, ne_eq]
        exact fun hh => hmn hh.symm
      have hpm : (p.1 == m) = false := by
        rw [hp1]
        simpa using hnm
      simp only [List.map_cons, List.find?]
      rw [if_pos hp]
      simp only [hnm, hpm]
      exact ih
    · simp only [List.map_cons, List.find?]
      rw [if_neg hp]
      cases hcm : (p.1 == m) with
      | true => rfl
      | false => exact ih

/-- Claim C9: for a name whose uppercased form is a defined locator
attribute, `set_locator` returns True, a subsequent `get_locator` of that
name returns exactly the new locator, and every entry under another key is
unchanged; for any other name `set_locator` returns False leaving the table
untouched, and `get_locator` returns None. -/
theorem locator_set_get (t : LocatorTable) (name : String) (loc : Loc) :
    (t.hasattr (upperName name) = true →
       (set_locator t name loc).1 = true
     ∧ get_locator (set_locator t name loc).2 name = some loc
     ∧ ∀ m : String, upperName m ≠ upperName name →
         get_locator (set_locator t name loc).2 m = get_locator t m)
  ∧ (t.hasattr (upperName name) = false →
       (set_locator t name loc).1 = false
     ∧ (set_locator t name loc).2 = t
     ∧ get_locator t name = none) := by
  constructor
  · intro h
    refine ⟨?_, ?_, ?_⟩
    · unfold set_locator
      rw [if_pos h]
    · unfold set_locator get_locator
      rw [if_pos h]
      simp only
      rw [find_map_update_self t.entries (upperName name) loc h]
      rfl
    · intro m hm
      unfold set_locator get_locator
      rw [if_pos h]
      simp only
      rw [find_map_update_other t.entries (upperName name) (upperName m) loc hm]
  · intro h
    refine ⟨?_, ?_, ?_⟩
    · unfold set_locator
      rw [if_neg (by rw [h]; exact Bool.false_ne_true)]
    · unfold set_locator
      rw [if_neg (by rw [h]; exact Bool.false_ne_true)]
    · unfold get_locator
      have hfind : t.entries.find? (fun p => p.1 == upperName name) = none := by
        apply List.find?_eq_none.mpr
        intro p hp hpn
        have hany : t.entries.any (fun p => p.1 == upperName name) = true :=
          List.any_eq_true.mpr ⟨p, hp, hpn⟩
        rw [LocatorTable.hasattr] at h
        rw [h] at hany
        cases hany
      rw [hfind]
      rfl

/-- Witness for C9: on the class's initial table, replacing `QR_CODE` via
the lowercase name works and leaves `AUTH` untouched, while an unknown name
is rejected with the table unchanged and reads back as None. -/
theorem locator_set_get_witness :
    get_locator (set_locator Locator.initial "qr_code" ("xpath", "//canvas[2]")).2 "qr_code"
      = some ("xpath", "//canvas[2]")
  ∧ get_locator (set_locator Locator.initial "qr_code" ("xpath", "//canvas[2]")).2 "auth"
      = get_locator Locator.initial "auth"
  ∧ (set_locator Locator.initial "no_such_locator" ("xpath", "//x")).2 = Locator.initial
  ∧ get_locator Locator.initial "no_such_locator" = none := by
  have h1 := (locator_set_get Locator.initial "qr_code" ("xpath", "//canvas[2]")).1 (by decide)
  have h2 := (locator_set_get Locator.initial "no_such_locator" ("xpath", "//x")).2 (by decide)
  exact ⟨h1.2.1, h1.2.2 "auth" (by decide), h2.2.1, h2.2.2⟩

/-- Claim C10: `stop()` before the loop has initialized the driver
dereferences `None` and raises; `stop()` returning normally presupposes an
initialized driver, and a freshly constructed client is in the raising
state. -/
theorem stop_requires_driver (c : Client) :
    (c.driver = none → c.stop = .error .noneDriver)
  ∧ (∀ c', c.stop = .ok c' → c.driver ≠ none)
  ∧ Client.init.stop = .error .noneDriver := by
  refine ⟨fun h => ?_, fun c' h hn => ?_, rfl⟩
  · simp [Client.stop, h]
  · simp [Client.stop, hn] at h

/-- Witness for C10: a freshly constructed client has no driver and its
`stop()` raises. -/
theorem stop_requires_driver_witness :
    Client.init.driver = none ∧ Client.init.stop = .error .noneDriver :=
  ⟨rfl, (stop_requires_driver Client.init).1 rfl⟩

end RedShot
